import Mathlib

/-
Verification of the load-generation and lifecycle orchestrator in
`test/performance/scripts/perf_run.py`.

The Python source is embedded shallowly: pure helpers become Lean functions,
remote calls become oracles (functions from call/attempt indices to outcomes),
exceptions become `Except`/sum types, and wall-clock loops become discrete
step functions (one step per loop iteration, the fixed sleeps recorded as
data).  Every definition mirrors the named Python function, with the source
line numbers given in its doc comment.
-/

namespace PerfRun

/-- Substring test on character lists: `hasInfixAux pat l` is `true` exactly
when `pat` occurs contiguously inside `l`.  Models Python's `in` operator on
strings. -/
def hasInfixAux (pat : List Char) : List Char → Bool
  | [] => pat.isEmpty
  | c :: rest => List.isPrefixOf pat (c :: rest) || hasInfixAux pat rest

/-- Python's `pat in s` for strings. -/
def strContains (s pat : String) : Bool :=
  hasInfixAux pat.data s.data

/-- A `kubernetes.client.ApiException` as the orchestrator observes it: an
HTTP-style status code (`e.status`) and an error body string (`e.body`).
`perf_run.py` reads only these two attributes. -/
structure ApiErr where
  status : Nat
  body : String
deriving DecidableEq

/-- Embedding of `should_retry_api_exception` (perf_run.py lines 52-63):
retryable iff the status is 429 or 500, or the body contains one of the
transient markers.  The Python `getattr(e, 'body', '') or ''` coercion is
modelled by `body` always being a string; the enclosing
`try/except Exception: pass` can never fire on these operations. -/
def should_retry_api_exception (e : ApiErr) : Bool :=
  (e.status == 429 || e.status == 500)
    || strContains e.body "Internal error occurred"
    || strContains e.body "failed calling webhook"
    || strContains e.body "EOF"

/-- Outcome of one invocation of the function wrapped by the Retry Executor:
normal return, an `ApiException`, or any other Python exception. -/
inductive CallOutcome (α : Type) where
  | ok (a : α)
  | apiErr (e : ApiErr)
  | otherErr (msg : String)
deriving DecidableEq

/-- Observable behaviour of one `retry_with_backoff` run: the final outcome
(returned value or re-raised exception), the number of calls made to `fn`,
and the list of back-off sleeps performed, in order and in seconds. -/
structure RetryTrace (α : Type) where
  result : CallOutcome α
  calls : Nat
  sleeps : List Nat
deriving DecidableEq

/-- Loop body of `retry_with_backoff` (perf_run.py lines 66-77).  `fn a` is
the outcome of the `a`-th call of `fn` (attempts are numbered from 1, as in
the Python `for attempt in range(1, 7)`).  `fuel` is the number of loop
iterations still available; the orchestrator always starts it at 6, so the
`fuel = 0` branch is unreachable (proved where needed via the invariant
`attempt + fuel = 7`).  On a retryable `ApiException` with `attempt < 6` the
loop sleeps `delay` seconds, doubles `delay` capped at 16, and retries;
otherwise it re-raises the original exception unchanged. -/
def retryGo (fn : Nat → CallOutcome α) : Nat → Nat → Nat → List Nat → RetryTrace α
  | 0, attempt, _, slept => ⟨.otherErr "loop exhausted", attempt, slept.reverse⟩
  | fuel + 1, attempt, delay, slept =>
    match fn attempt with
    | .ok a => ⟨.ok a, attempt, slept.reverse⟩
    | .otherErr m => ⟨.otherErr m, attempt, slept.reverse⟩
    | .apiErr e =>
      if should_retry_api_exception e = true ∧ attempt < 6 then
        retryGo fn fuel (attempt + 1) (min (delay * 2) 16) (delay :: slept)
      else ⟨.apiErr e, attempt, slept.reverse⟩

/-- Embedding of `retry_with_backoff` (perf_run.py lines 66-77):
`delay` starts at 1 second, attempts run from 1 to 6. -/
def retry_with_backoff (fn : Nat → CallOutcome α) : RetryTrace α :=
  retryGo fn 6 1 1 []

/-- The sequence of `m` back-off delays starting from `delay`, each doubled
and capped at 16 (mirrors `delay = min(delay * 2, 16)`). -/
def doubling_delays (delay : Nat) : Nat → List Nat
  | 0 => []
  | m + 1 => delay :: doubling_delays (min (delay * 2) 16) m

/-- The delay value after `m` doubling-and-capping updates. -/
def iterCap (delay : Nat) : Nat → Nat
  | 0 => delay
  | m + 1 => iterCap (min (delay * 2) 16) m

theorem doubling_delays_one_eq_take (m : Nat) (hm : m ≤ 5) :
    doubling_delays 1 m = List.take m [1, 2, 4, 8, 16] := by
  interval_cases m <;> rfl

/-- Skipping lemma: `m` consecutive retryable `ApiException` results advance
the loop by `m` attempts, consuming `m` fuel, doubling the delay `m` times
and recording the slept delays. -/
theorem retryGo_skip (fn : Nat → CallOutcome α) :
    ∀ (m fuel attempt delay : Nat) (slept : List Nat),
      attempt + m ≤ 6 →
      (∀ i, attempt ≤ i → i < attempt + m →
        ∃ e, fn i = .apiErr e ∧ should_retry_api_exception e = true) →
      retryGo fn (fuel + m) attempt delay slept
        = retryGo fn fuel (attempt + m) (iterCap delay m)
            ((doubling_delays delay m).reverse ++ slept) := by
  intro m
  induction m with
  | zero =>
    intro fuel attempt delay slept _ _
    simp [iterCap, doubling_delays]
  | succ m ih =>
    intro fuel attempt delay slept hle hfail
    obtain ⟨e, hfe, hre⟩ := hfail attempt (Nat.le_refl _) (by omega)
    have hstep :
        retryGo fn (fuel + m + 1) attempt delay slept
          = retryGo fn (fuel + m) (attempt + 1) (min (delay * 2) 16) (delay :: slept) := by
      simp [retryGo, hfe, hre]
      omega
    calc retryGo fn (fuel + (m + 1)) attempt delay slept
        = retryGo fn (fuel + m) (attempt + 1) (min (delay * 2) 16) (delay :: slept) := by
          rw [show fuel + (m + 1) = fuel + m + 1 by omega, hstep]
      _ = retryGo fn fuel (attempt + 1 + m) (iterCap (min (delay * 2) 16) m)
            ((doubling_delays (min (delay * 2) 16) m).reverse ++ (delay :: slept)) := by
          exact ih fuel (attempt + 1) (min (delay * 2) 16) (delay :: slept) (by omega)
            (fun i h1 h2 => hfail i (by omega) (by omega))
      _ = retryGo fn fuel (attempt + (m + 1)) (iterCap delay (m + 1))
            ((doubling_delays delay (m + 1)).reverse ++ slept) := by
          rw [show attempt + 1 + m = attempt + (m + 1) by omega]
          simp [iterCap, doubling_delays]

/-- The result of a (reachable) `retryGo` configuration is always the outcome
of one of the calls to `fn` — the Executor never wraps or replaces errors. -/
theorem retryGo_result_is_call (fn : Nat → CallOutcome α) :
    ∀ (fuel attempt delay : Nat) (slept : List Nat),
      attempt + fuel = 7 → attempt ≤ 6 →
      ∃ j, attempt ≤ j ∧ j ≤ 6 ∧ (retryGo fn fuel attempt delay slept).result = fn j := by
  intro fuel
  induction fuel with
  | zero => intro attempt delay slept hinv hatt; omega
  | succ fuel ih =>
    intro attempt delay slept hinv hatt
    rcases hfn : fn attempt with a | e | m
    · exact ⟨attempt, Nat.le_refl _, hatt, by simp [retryGo, hfn]⟩
    · by_cases hc : should_retry_api_exception e = true ∧ attempt < 6
      · have hrec :
            retryGo fn (fuel + 1) attempt delay slept
              = retryGo fn fuel (attempt + 1) (min (delay * 2) 16) (delay :: slept) := by
          simp [retryGo, hfn, hc.1, hc.2]
        obtain ⟨j, hj1, hj2, hj3⟩ :=
          ih (attempt + 1) (min (delay * 2) 16) (delay :: slept) (by omega) (by omega)
        exact ⟨j, by omega, hj2, by rw [hrec]; exact hj3⟩
      · refine ⟨attempt, Nat.le_refl _, hatt, ?_⟩
        simp [retryGo, hfn, hc]
    · exact ⟨attempt, Nat.le_refl _, hatt, by simp [retryGo, hfn]⟩

/-- One loop step of `retry_with_backoff` when the call returns normally. -/
theorem retryGo_succ_ok (fn : Nat → CallOutcome α) (fuel attempt delay : Nat)
    (slept : List Nat) (a : α) (hfn : fn attempt = .ok a) :
    retryGo fn (fuel + 1) attempt delay slept = ⟨.ok a, attempt, slept.reverse⟩ := by
  simp [retryGo, hfn]

/-- One loop step of `retry_with_backoff` when the call raises something other
than an `ApiException`: the loop has no handler for it, so it propagates. -/
theorem retryGo_succ_other (fn : Nat → CallOutcome α) (fuel attempt delay : Nat)
    (slept : List Nat) (msg : String) (hfn : fn attempt = .otherErr msg) :
    retryGo fn (fuel + 1) attempt delay slept = ⟨.otherErr msg, attempt, slept.reverse⟩ := by
  simp [retryGo, hfn]

/-- One loop step of `retry_with_backoff` when the call raises an
`ApiException` that is not retried: the original exception is re-raised. -/
theorem retryGo_succ_raise (fn : Nat → CallOutcome α) (fuel attempt delay : Nat)
    (slept : List Nat) (e : ApiErr) (hfn : fn attempt = .apiErr e)
    (h : ¬(should_retry_api_exception e = true ∧ attempt < 6)) :
    retryGo fn (fuel + 1) attempt delay slept = ⟨.apiErr e, attempt, slept.reverse⟩ := by
  simp only [retryGo, hfn]
  rw [if_neg h]

/-- After `m ≤ 5` leading retryable failures, `retry_with_backoff` is poised
at attempt `m + 1` having slept the doubled-and-capped delays. -/
theorem retry_with_backoff_after_failures (fn : Nat → CallOutcome α) (m : Nat) (hm : m ≤ 5)
    (hfail : ∀ i, 1 ≤ i → i ≤ m →
      ∃ e, fn i = .apiErr e ∧ should_retry_api_exception e = true) :
    retry_with_backoff fn
      = retryGo fn (6 - m) (1 + m) (iterCap 1 m) (doubling_delays 1 m).reverse := by
  have hskip := retryGo_skip fn m (6 - m) 1 1 [] (by omega)
    (fun i h1 h2 => hfail i h1 (by omega))
  have h6 : (6 - m) + m = 6 := by omega
  rw [h6] at hskip
  rw [retry_with_backoff, hskip]
  simp

/-- C2: for a call whose first `m ≤ 5` failures are all classified retryable,
`retry_with_backoff` (perf_run.py lines 66-77) makes exactly
`min(6, attempts until success)` calls, sleeping the doubled-and-capped delay
sequence `1, 2, 4, 8, 16` between consecutive attempts; on a non-retryable
classification or once all 6 attempts are exhausted it returns the original
`ApiException` unchanged. -/
theorem C2_retry_executor (fn : Nat → CallOutcome α) (m : Nat) (hm : m ≤ 5)
    (hfail : ∀ i, 1 ≤ i → i ≤ m →
      ∃ e, fn i = .apiErr e ∧ should_retry_api_exception e = true) :
    (∀ a, fn (m + 1) = .ok a →
      retry_with_backoff fn = ⟨.ok a, m + 1, List.take m [1, 2, 4, 8, 16]⟩)
    ∧ (∀ e, fn (m + 1) = .apiErr e → should_retry_api_exception e = false →
      retry_with_backoff fn = ⟨.apiErr e, m + 1, List.take m [1, 2, 4, 8, 16]⟩)
    ∧ (m = 5 → ∀ e, fn 6 = .apiErr e →
      retry_with_backoff fn = ⟨.apiErr e, 6, [1, 2, 4, 8, 16]⟩) := by
  have hbase := retry_with_backoff_after_failures fn m hm hfail
  have hfuel : 6 - m = (5 - m) + 1 := by omega
  have hone : 1 + m = m + 1 := by omega
  refine ⟨?_, ?_, ?_⟩
  · intro a hfn
    rw [hbase, hfuel, hone,
      retryGo_succ_ok fn (5 - m) (m + 1) (iterCap 1 m) (doubling_delays 1 m).reverse a hfn]
    simp [doubling_delays_one_eq_take m hm]
  · intro e hfn hre
    rw [hbase, hfuel, hone,
      retryGo_succ_raise fn (5 - m) (m + 1) (iterCap 1 m) (doubling_delays 1 m).reverse e hfn
        (by simp [hre])]
    simp [doubling_delays_one_eq_take m hm]
  · intro hm5 e hfn
    subst hm5
    rw [hbase, hfuel, hone,
      retryGo_succ_raise fn 0 6 (iterCap 1 5) (doubling_delays 1 5).reverse e hfn
        (by omega)]
    simp [doubling_delays]

/-- C2 witness input: two retryable 500 failures, then success with value 7. -/
def fnC2 : Nat → CallOutcome Nat :=
  fun i => if i ≤ 2 then .apiErr ⟨500, ""⟩ else .ok 7

theorem C2_retry_executor_witness :
    retry_with_backoff fnC2 = ⟨.ok 7, 3, List.take 2 [1, 2, 4, 8, 16]⟩ :=
  (C2_retry_executor fnC2 2 (by omega)
    (fun i h1 h2 => by interval_cases i <;> exact ⟨⟨500, ""⟩, rfl, rfl⟩)).1 7 rfl

/-- C10: an exception that is not an `ApiException` is not handled by the
`except ApiException` clause of `retry_with_backoff`: it propagates to the
caller on the attempt where it occurs, unchanged, with no further call and no
backoff sleep beyond those from earlier retryable attempts. -/
theorem C10_non_api_exception_propagates (fn : Nat → CallOutcome α) (m : Nat) (hm : m ≤ 5)
    (hfail : ∀ i, 1 ≤ i → i ≤ m →
      ∃ e, fn i = .apiErr e ∧ should_retry_api_exception e = true)
    (msg : String) (hfn : fn (m + 1) = .otherErr msg) :
    retry_with_backoff fn = ⟨.otherErr msg, m + 1, List.take m [1, 2, 4, 8, 16]⟩ := by
  have hbase := retry_with_backoff_after_failures fn m hm hfail
  have hfuel : 6 - m = (5 - m) + 1 := by omega
  have hone : 1 + m = m + 1 := by omega
  rw [hbase, hfuel, hone,
    retryGo_succ_other fn (5 - m) (m + 1) (iterCap 1 m) (doubling_delays 1 m).reverse msg hfn]
  simp [doubling_delays_one_eq_take m hm]

/-- C10 witness input: one retryable 429 failure, then a non-`ApiException`. -/
def fnC10 : Nat → CallOutcome Nat :=
  fun i => if i = 1 then .apiErr ⟨429, ""⟩ else .otherErr "TypeError"

theorem C10_non_api_exception_propagates_witness :
    retry_with_backoff fnC10 = ⟨.otherErr "TypeError", 2, List.take 1 [1, 2, 4, 8, 16]⟩ :=
  C10_non_api_exception_propagates fnC10 1 (by omega)
    (fun i h1 h2 => by interval_cases i; exact ⟨⟨429, ""⟩, rfl, rfl⟩) "TypeError" rfl

/-- A Python exception as seen by the top-level handlers: either an
`ApiException` or any other exception. -/
inductive PyErr where
  | api (e : ApiErr)
  | other (msg : String)
deriving DecidableEq

/-- Python's `f"{i:03d}"`: decimal rendering zero-padded to width 3. -/
def pyFormat03d (i : Nat) : String :=
  let s := toString i
  if s.length < 3 then String.mk (List.replicate (3 - s.length) '0') ++ s else s

/-- Deterministic project naming from `create_org_and_projects`
(perf_run.py line 365): `f"{org_name}-p-{i:03d}"` written without braces. -/
def project_name (orgName : String) (i : Nat) : String :=
  orgName ++ "-p-" ++ pyFormat03d i

/-- The Organization-create step of `create_org_and_projects` (perf_run.py
lines 332-343): the create call runs through `retry_with_backoff`; an
`ApiException` escaping the Executor is swallowed exactly when its status is
409, any other error propagates.  `outcome k` is the result of the `k`-th
attempt of the underlying create call. -/
def create_org (outcome : Nat → CallOutcome Unit) : Except PyErr Unit :=
  match (retry_with_backoff outcome).result with
  | .ok _ => .ok ()
  | .apiErr e => if e.status = 409 then .ok () else .error (.api e)
  | .otherErr msg => .error (.other msg)

/-- The Project-create loop of `create_org_and_projects` (perf_run.py lines
361-387), creating projects `i, i+1, …` for `m` more projects.  The name is
appended to `project_names` before the create is attempted, so a tolerated
409 still leaves the name in the returned readiness-wait list.
`outcome i k` is the result of attempt `k` of the create call for project
`i`. -/
def create_projects_from (orgName : String) (outcome : Nat → Nat → CallOutcome Unit) :
    Nat → Nat → Except PyErr (List String)
  | _, 0 => .ok []
  | i, m + 1 =>
    match (retry_with_backoff (outcome i)).result with
    | .ok _ =>
      (create_projects_from orgName outcome (i + 1) m).map
        (fun rest => project_name orgName i :: rest)
    | .apiErr e =>
      if e.status = 409 then
        (create_projects_from orgName outcome (i + 1) m).map
          (fun rest => project_name orgName i :: rest)
      else .error (.api e)
    | .otherErr msg => .error (.other msg)

/-- The full project-create loop: projects `1` to `n`, returning the
readiness-wait list (perf_run.py lines 361-396). -/
def create_projects (orgName : String) (n : Nat) (outcome : Nat → Nat → CallOutcome Unit) :
    Except PyErr (List String) :=
  create_projects_from orgName outcome 1 n

/-- The readiness-wait list produced by a fully successful (or fully
409-tolerated) run of the project-create loop. -/
def project_names_from (orgName : String) : Nat → Nat → List String
  | _, 0 => []
  | i, m + 1 => project_name orgName i :: project_names_from orgName (i + 1) m

theorem project_name_mem_names_from (orgName : String) :
    ∀ (m i j : Nat), i ≤ j → j < i + m →
      project_name orgName j ∈ project_names_from orgName i m := by
  intro m
  induction m with
  | zero => intro i j h1 h2; omega
  | succ m ih =>
    intro i j h1 h2
    rcases Nat.eq_or_lt_of_le h1 with heq | hlt
    · subst heq; exact List.mem_cons_self _ _
    · exact List.mem_cons_of_mem _ (ih (i + 1) j hlt (by omega))

/-- If every attempt of every create in range returns success or a 409
`ApiException`, the project loop completes and returns the full name list. -/
theorem create_projects_from_ok (orgName : String)
    (outcome : Nat → Nat → CallOutcome Unit) :
    ∀ (m i : Nat),
      (∀ i' k, i ≤ i' → i' < i + m → 1 ≤ k → k ≤ 6 →
        (∃ a, outcome i' k = .ok a) ∨ (∃ e, outcome i' k = .apiErr e ∧ e.status = 409)) →
      create_projects_from orgName outcome i m = .ok (project_names_from orgName i m) := by
  intro m
  induction m with
  | zero => intro i _; rfl
  | succ m ih =>
    intro i h
    obtain ⟨j, hj1, hj2, hj3⟩ := retryGo_result_is_call (outcome i) 6 1 1 [] rfl (by omega)
    have hres : (retry_with_backoff (outcome i)).result = outcome i j := hj3
    have hrest := ih (i + 1) (fun i' k h1 h2 hk1 hk2 => h i' k (by omega) (by omega) hk1 hk2)
    rcases h i j (Nat.le_refl _) (by omega) hj1 hj2 with ⟨a, ha⟩ | ⟨e, he, hst⟩
    · simp [create_projects_from, hres, ha, hrest, project_names_from, Except.map]
    · simp [create_projects_from, hres, he, hst, hrest, project_names_from, Except.map]

/-- Counterexample input for C1: a create call that fails every attempt with
a 409 whose body mentions a truncated connection (`EOF`). -/
def fnC1 : Nat → CallOutcome Unit :=
  fun _ => .apiErr ⟨409, "EOF"⟩

/-- C1 counterexample: the claim says every 409 create error is classified
non-retryable (exactly one attempt, no backoff sleep), but
`should_retry_api_exception` tests the transient body markers before ever
looking at 409: a 409 whose body contains `EOF` is classified retryable and
the Executor makes all 6 attempts, sleeping 1+2+4+8+16 seconds. -/
theorem C1_counterexample :
    should_retry_api_exception ⟨409, "EOF"⟩ = true
    ∧ (retry_with_backoff fnC1).calls = 6
    ∧ (retry_with_backoff fnC1).sleeps = [1, 2, 4, 8, 16]
    ∧ ¬((retry_with_backoff fnC1).calls = 1 ∧ (retry_with_backoff fnC1).sleeps = []) := by
  exact ⟨rfl, rfl, rfl, by decide⟩

/-- C1 (amended): for every create call (Organization or Project) whose
failures all carry HTTP status 409, the error never surfaces to the Tree
Provisioner — the provisioner treats it as already-exists success — and for a
Project create the project's name is still included in the readiness-wait
list, so the run proceeds normally; moreover, when the 409 body contains none
of the transient markers, the Retry Executor classifies it as non-retryable
(exactly one attempt, no backoff sleep). -/
theorem C1_conflict_tolerated (orgName : String) (n : Nat)
    (orgOutcome : Nat → CallOutcome Unit) (projOutcome : Nat → Nat → CallOutcome Unit)
    (horg : ∀ k, 1 ≤ k → k ≤ 6 →
      (∃ a, orgOutcome k = .ok a) ∨ (∃ e, orgOutcome k = .apiErr e ∧ e.status = 409))
    (hproj : ∀ i k, 1 ≤ i → i ≤ n → 1 ≤ k → k ≤ 6 →
      (∃ a, projOutcome i k = .ok a) ∨ (∃ e, projOutcome i k = .apiErr e ∧ e.status = 409)) :
    create_org orgOutcome = .ok ()
    ∧ create_projects orgName n projOutcome = .ok (project_names_from orgName 1 n)
    ∧ (∀ i, 1 ≤ i → i ≤ n → project_name orgName i ∈ project_names_from orgName 1 n)
    ∧ (∀ e, orgOutcome 1 = .apiErr e → should_retry_api_exception e = false →
        (retry_with_backoff orgOutcome).calls = 1
          ∧ (retry_with_backoff orgOutcome).sleeps = []) := by
  refine ⟨?_, ?_, ?_, ?_⟩
  · obtain ⟨j, hj1, hj2, hj3⟩ := retryGo_result_is_call orgOutcome 6 1 1 [] rfl (by omega)
    rcases horg j hj1 hj2 with ⟨a, ha⟩ | ⟨e, he, hst⟩
    · simp [create_org, retry_with_backoff] at hj3 ⊢
      rw [hj3, ha]
    · simp [create_org, retry_with_backoff] at hj3 ⊢
      rw [hj3, he]
      simp [hst]
  · exact create_projects_from_ok orgName projOutcome n 1
      (fun i' k h1 h2 hk1 hk2 => hproj i' k h1 (by omega) hk1 hk2)
  · intro i h1 h2
    exact project_name_mem_names_from orgName n 1 i h1 (by omega)
  · intro e he hre
    have : retry_with_backoff orgOutcome = retryGo orgOutcome (5 + 1) 1 1 [] := rfl
    rw [this, retryGo_succ_raise orgOutcome 5 1 1 [] e he (by simp [hre])]
    exact ⟨rfl, rfl⟩

/-- C1 witness inputs: the Organization create hits a plain-body 409 on its
only attempt; project 2 of 3 hits a plain-body 409 on its first attempt and
succeeds after; the other projects succeed immediately. -/
def orgOutcomeC1 : Nat → CallOutcome Unit :=
  fun _ => .apiErr ⟨409, "organizations perf-abc already exists"⟩

def projOutcomeC1 : Nat → Nat → CallOutcome Unit :=
  fun i k => if i = 2 ∧ k = 1 then .apiErr ⟨409, "AlreadyExists"⟩ else .ok ()

theorem C1_conflict_tolerated_witness :
    create_org orgOutcomeC1 = .ok ()
    ∧ create_projects "perf-abc" 3 projOutcomeC1
        = .ok (project_names_from "perf-abc" 1 3)
    ∧ project_name "perf-abc" 2 ∈ project_names_from "perf-abc" 1 3
    ∧ (retry_with_backoff orgOutcomeC1).calls = 1
    ∧ (retry_with_backoff orgOutcomeC1).sleeps = [] := by
  have h := C1_conflict_tolerated "perf-abc" 3 orgOutcomeC1 projOutcomeC1
    (fun k h1 h2 => Or.inr ⟨⟨409, "organizations perf-abc already exists"⟩, rfl, rfl⟩)
    (fun i k h1 h2 hk1 hk2 => by
      by_cases hik : i = 2 ∧ k = 1
      · exact Or.inr ⟨⟨409, "AlreadyExists"⟩, by simp [projOutcomeC1, hik], rfl⟩
      · exact Or.inl ⟨(), by simp [projOutcomeC1, hik]⟩)
  obtain ⟨ho, hp, hmem, hcalls⟩ := h
  exact ⟨ho, hp, hmem 2 (by omega) (by omega), hcalls ⟨409, "organizations perf-abc already exists"⟩ rfl rfl⟩

/-- A status condition read from a custom resource: a free-form dict of which
the orchestrator reads `type`, `status`, `reason` and `message` via `.get`
(a missing key is `none`). -/
structure KCondition where
  ctype : Option String
  status : Option String
  reason : Option String
  message : Option String
deriving DecidableEq

/-- A fetched custom object, reduced to the part the poller inspects:
`obj.get("status", \x7b\x7d).get("conditions")`. -/
structure KObj where
  conditions : Option (List KCondition)
deriving DecidableEq

/-- Embedding of `find_condition` (perf_run.py lines 236-242): first condition
whose `type` equals `ctype`; `None` when the list is absent.  Python's
`if not conditions` also covers the empty list, on which `find?` already
returns `none`. -/
def find_condition (conditions : Option (List KCondition)) (ctype : String) :
    Option KCondition :=
  match conditions with
  | none => none
  | some cs => cs.find? (fun c => c.ctype == some ctype)

/-- Python's `str` applied to an optional string (`str(None) = "None"`). -/
def pyStr : Option String → String
  | some s => s
  | none => "None"

/-- The poll-success test of `wait_condition_ready` (perf_run.py line 260):
`cond and str(cond.get("status")) == "True"` for the `Ready` condition. -/
def ready_status_true (obj : KObj) : Bool :=
  match find_condition obj.conditions "Ready" with
  | some c => pyStr c.status == "True"
  | none => false

/-- Result of one `wait_condition_ready` run: success observed at poll
iteration `poll`, an uncaught exception raised by the fetch at iteration
`poll`, or the deadline elapsing with the `TimeoutError` message. -/
inductive WaitResult where
  | ready (poll : Nat)
  | fetchError (e : PyErr) (poll : Nat)
  | timeout (msg : String)
deriving DecidableEq

/-- The `TimeoutError` message raised by `wait_condition_ready`
(perf_run.py line 276), written without braces. -/
def timeout_message (plural name : String) : String :=
  "Timed out waiting for " ++ plural ++ "/" ++ name ++ " Ready"

/-- Loop of `wait_condition_ready` (perf_run.py lines 245-276) in discrete
time: iteration `i` runs at elapsed time `2*i` seconds (each iteration ends
with `time.sleep(2)`; fetch time is not modelled).  The loop guard is
`time.time() < deadline`, i.e. `2*i < timeout_s`.  `fetch i` is the outcome
of the `get_cluster_custom_object` call at iteration `i`; the source wraps it
in no `try`, so an exception aborts the wait.  `fuel` bounds the recursion;
starting it at `timeout_s` is enough because `i` grows by 1 while the guard
needs `2*i < timeout_s`, so the `fuel = 0` branch is reached only with the
guard already false, where returning the timeout is exact. -/
def waitGo (fetch : Nat → Except PyErr KObj) (plural name : String) (timeout_s : Nat) :
    Nat → Nat → WaitResult
  | 0, _ => .timeout (timeout_message plural name)
  | fuel + 1, i =>
    if 2 * i < timeout_s then
      match fetch i with
      | .error e => .fetchError e i
      | .ok obj =>
        if ready_status_true obj then .ready i
        else waitGo fetch plural name timeout_s fuel (i + 1)
    else .timeout (timeout_message plural name)

/-- Embedding of `wait_condition_ready` (perf_run.py lines 245-276). -/
def wait_condition_ready (fetch : Nat → Except PyErr KObj) (plural name : String)
    (timeout_s : Nat) : WaitResult :=
  waitGo fetch plural name timeout_s timeout_s 0

/-- If every iteration before the deadline fetches an object without a
`Ready`-true condition, the loop runs to the deadline and raises the
timeout. -/
theorem waitGo_timeout (fetch : Nat → Except PyErr KObj) (plural name : String)
    (timeout_s : Nat) :
    ∀ (fuel i : Nat), timeout_s ≤ fuel + 2 * i →
      (∀ j, i ≤ j → 2 * j < timeout_s →
        ∃ o, fetch j = .ok o ∧ ready_status_true o = false) →
      waitGo fetch plural name timeout_s fuel i = .timeout (timeout_message plural name) := by
  intro fuel
  induction fuel with
  | zero => intro i _ _; rfl
  | succ fuel ih =>
    intro i hinv hnr
    by_cases hlt : 2 * i < timeout_s
    · obtain ⟨o, ho, hro⟩ := hnr i (Nat.le_refl _) hlt
      simp only [waitGo, if_pos hlt, ho, hro, if_neg Bool.false_ne_true]
      exact ih (i + 1) (by omega) (fun j hj => hnr j (by omega))
    · simp only [waitGo, if_neg hlt]

/-- If iterations `i, …, k-1` fetch not-yet-ready objects and iteration `k`
(before the deadline) fetches a `Ready`-true object, the loop succeeds at
iteration `k`. -/
theorem waitGo_ready (fetch : Nat → Except PyErr KObj) (plural name : String)
    (timeout_s : Nat) (k : Nat) (ob : KObj) (hk : 2 * k < timeout_s)
    (hob : fetch k = .ok ob) (hready : ready_status_true ob = true) :
    ∀ (fuel i : Nat), i ≤ k → timeout_s ≤ fuel + 2 * i →
      (∀ j, i ≤ j → j < k → ∃ o, fetch j = .ok o ∧ ready_status_true o = false) →
      waitGo fetch plural name timeout_s fuel i = .ready k := by
  intro fuel
  induction fuel with
  | zero => intro i hik hinv _; omega
  | succ fuel ih =>
    intro i hik hinv hnr
    rcases Nat.eq_or_lt_of_le hik with heq | hlt
    · subst heq
      simp [waitGo, if_pos hk, hob, hready]
    · obtain ⟨o, ho, hro⟩ := hnr i (Nat.le_refl _) hlt
      have hguard : 2 * i < timeout_s := by omega
      simp only [waitGo, if_pos hguard, ho, hro, if_neg Bool.false_ne_true]
      exact ih (i + 1) (by omega) (by omega) (fun j hj => hnr j (by omega))

/-- If iterations `i, …, k-1` fetch not-yet-ready objects and the fetch at
iteration `k` (before the deadline) raises, the exception escapes the loop at
iteration `k`. -/
theorem waitGo_fetch_error (fetch : Nat → Except PyErr KObj) (plural name : String)
    (timeout_s : Nat) (k : Nat) (e : PyErr) (hk : 2 * k < timeout_s)
    (herr : fetch k = .error e) :
    ∀ (fuel i : Nat), i ≤ k → timeout_s ≤ fuel + 2 * i →
      (∀ j, i ≤ j → j < k → ∃ o, fetch j = .ok o ∧ ready_status_true o = false) →
      waitGo fetch plural name timeout_s fuel i = .fetchError e k := by
  intro fuel
  induction fuel with
  | zero => intro i hik hinv _; omega
  | succ fuel ih =>
    intro i hik hinv hnr
    rcases Nat.eq_or_lt_of_le hik with heq | hlt
    · subst heq
      simp only [waitGo, if_pos hk, herr]
    · obtain ⟨o, ho, hro⟩ := hnr i (Nat.le_refl _) hlt
      have hguard : 2 * i < timeout_s := by omega
      simp only [waitGo, if_pos hguard, ho, hro, if_neg Bool.false_ne_true]
      exact ih (i + 1) (by omega) (by omega) (fun j hj => hnr j (by omega))

/-- C6: `wait_condition_ready` returns success at the first poll iteration
that observes the `Ready` condition with status `"True"`, and raises a
`TimeoutError` naming the resource when the deadline elapses with Ready=True
never observed. -/
theorem C6_wait_ready (fetch : Nat → Except PyErr KObj) (plural name : String)
    (timeout_s : Nat) :
    (∀ k ob, 2 * k < timeout_s → fetch k = .ok ob → ready_status_true ob = true →
      (∀ j, j < k → ∃ o, fetch j = .ok o ∧ ready_status_true o = false) →
      wait_condition_ready fetch plural name timeout_s = .ready k)
    ∧ ((∀ j, 2 * j < timeout_s → ∃ o, fetch j = .ok o ∧ ready_status_true o = false) →
      wait_condition_ready fetch plural name timeout_s
        = .timeout (timeout_message plural name)) := by
  constructor
  · intro k ob hk hob hready hnr
    exact waitGo_ready fetch plural name timeout_s k ob hk hob hready timeout_s 0
      (Nat.zero_le _) (by omega) (fun j _ hj => hnr j hj)
  · intro hnr
    exact waitGo_timeout fetch plural name timeout_s timeout_s 0 (by omega)
      (fun j _ hj => hnr j hj)

/-- C6 witness inputs: the object reports Ready=False twice, then
Ready=True; a second fetch stream never reports Ready at all. -/
def readyCond (st : String) : KCondition :=
  ⟨some "Ready", some st, some "Provisioning", some "in progress"⟩

def fetchC6 : Nat → Except PyErr KObj :=
  fun i => if i < 2 then .ok ⟨some [readyCond "False"]⟩ else .ok ⟨some [readyCond "True"]⟩

def fetchC6timeout : Nat → Except PyErr KObj :=
  fun _ => .ok ⟨none⟩

theorem C6_wait_ready_witness :
    wait_condition_ready fetchC6 "projects" "perf-abc-p-001" 900 = .ready 2
    ∧ wait_condition_ready fetchC6timeout "projects" "perf-abc-p-001" 10
        = .timeout (timeout_message "projects" "perf-abc-p-001") := by
  constructor
  · exact (C6_wait_ready fetchC6 "projects" "perf-abc-p-001" 900).1 2
      ⟨some [readyCond "True"]⟩ (by omega) rfl rfl
      (fun j hj => by interval_cases j <;> exact ⟨⟨some [readyCond "False"]⟩, rfl, rfl⟩)
  · exact (C6_wait_ready fetchC6timeout "projects" "perf-abc-p-001" 10).2
      (fun j _ => ⟨⟨none⟩, rfl, rfl⟩)

/-- C3 counterexample: the claim says a transient fetch error does not abort
the wait, but the `get_cluster_custom_object` call on perf_run.py line 258 is
wrapped in no `try`: the very first failing fetch escapes
`wait_condition_ready` as that error, long before the 10-second deadline, and
the result is not the timeout. -/
theorem C3_counterexample :
    wait_condition_ready (fun _ => .error (.api ⟨503, "connection reset"⟩))
        "projects" "perf-abc-p-001" 10
      = .fetchError (.api ⟨503, "connection reset"⟩) 0
    ∧ wait_condition_ready (fun _ => .error (.api ⟨503, "connection reset"⟩))
        "projects" "perf-abc-p-001" 10
      ≠ .timeout (timeout_message "projects" "perf-abc-p-001") := by
  exact ⟨rfl, by decide⟩

/-- C3 (amended): a transient error raised by the status-fetch call is not
caught by the poller: the first fetch that raises, at any iteration before
the deadline, aborts `wait_condition_ready` immediately and surfaces as that
error rather than as the timeout. -/
theorem C3_fetch_error_aborts (fetch : Nat → Except PyErr KObj) (plural name : String)
    (timeout_s : Nat) (k : Nat) (e : PyErr) (hk : 2 * k < timeout_s)
    (herr : fetch k = .error e)
    (hbefore : ∀ j, j < k → ∃ o, fetch j = .ok o ∧ ready_status_true o = false) :
    wait_condition_ready fetch plural name timeout_s = .fetchError e k
    ∧ wait_condition_ready fetch plural name timeout_s
        ≠ .timeout (timeout_message plural name) := by
  have h := waitGo_fetch_error fetch plural name timeout_s k e hk herr timeout_s 0
    (Nat.zero_le _) (by omega) (fun j _ hj => hbefore j hj)
  refine ⟨h, ?_⟩
  rw [wait_condition_ready, h]
  intro hcon
  exact WaitResult.noConfusion hcon

/-- C3 witness input: one clean not-ready poll, then the fetch raises. -/
def fetchC3 : Nat → Except PyErr KObj :=
  fun i => if i = 0 then .ok ⟨some [readyCond "False"]⟩
    else .error (.api ⟨500, "Internal error occurred: EOF"⟩)

theorem C3_fetch_error_aborts_witness :
    wait_condition_ready fetchC3 "projects" "perf-abc-p-001" 900
      = .fetchError (.api ⟨500, "Internal error occurred: EOF"⟩) 1
    ∧ wait_condition_ready fetchC3 "projects" "perf-abc-p-001" 900
      ≠ .timeout (timeout_message "projects" "perf-abc-p-001") :=
  C3_fetch_error_aborts fetchC3 "projects" "perf-abc-p-001" 900 1
    (.api ⟨500, "Internal error occurred: EOF"⟩) (by omega) rfl
    (fun j hj => by interval_cases j; exact ⟨⟨some [readyCond "False"]⟩, rfl, rfl⟩)

/-- Loop of `http_get_json` (perf_run.py lines 118-132): 6 attempts indexed
0 to 5, sleeping `2 * (attempt + 1)` seconds after every failure — including
the last one — and re-raising the last error after the loop.  `resp a` is the
outcome of the HTTP request on attempt `a`; the returned list records the
sleeps in order.  `lastErr` models the `last_err` variable; the `getD`
default stands for the `assert last_err is not None`, unreachable because the
loop only exits exhausted after at least one failure. -/
def httpGo (resp : Nat → Except String α) :
    Nat → Nat → Option String → List Nat → Except String α × List Nat
  | 0, _, lastErr, slept => (.error (lastErr.getD ""), slept.reverse)
  | remaining + 1, attempt, _, slept =>
    match resp attempt with
    | .ok a => (.ok a, slept.reverse)
    | .error e => httpGo resp remaining (attempt + 1) (some e) (2 * (attempt + 1) :: slept)

/-- Embedding of `http_get_json` (perf_run.py lines 118-132). -/
def http_get_json (resp : Nat → Except String α) : Except String α × List Nat :=
  httpGo resp 6 0 none []

/-- The four metric keys of a `MetricsSnapshot`, in the order `run_queries`
builds them (perf_run.py lines 205-210). -/
def metricKeys : List String :=
  ["apiserver_cpu_cores", "apiserver_mem_bytes", "etcd_cpu_cores", "etcd_mem_bytes"]

/-- Per-query degradation in `run_queries` (perf_run.py lines 216-222): a
query that raises is replaced by `0.0`. -/
def valueOf (r : Except String ℚ) : ℚ :=
  match r with
  | .ok v => v
  | .error _ => 0

/-- Embedding of the inner `run_queries` of `measure_metrics` (perf_run.py
lines 187-223) for one label/filter combination: `q k` is the outcome of the
`prom_query` for metric key `k` (raising on transport exhaustion or a
non-success response, returning 0.0 on an empty result).  All four keys are
always present; a failed query degrades to 0. -/
def run_queries (q : String → Except String ℚ) : List (String × ℚ) :=
  metricKeys.map (fun k => (k, valueOf (q k)))

/-- The fixed fallback order of label/filter combinations
(perf_run.py line 226). -/
def label_variants : List (String × Bool) :=
  [("pod", true), ("pod", false), ("pod_name", true), ("pod_name", false)]

/-- The all-zero snapshot returned when every variant is all-zero
(perf_run.py line 233). -/
def zeroSnapshot : List (String × ℚ) :=
  metricKeys.map (fun k => (k, 0))

/-- The `any(v != 0.0 for v in results.values())` test
(perf_run.py line 229). -/
def anyNonzero (r : List (String × ℚ)) : Bool :=
  r.any (fun p => p.2 != 0)

/-- Fallback loop of `measure_metrics` (perf_run.py lines 226-233): try the
variants in order, return the first result set with any non-zero value, else
the zero snapshot. -/
def measureGo (q : String → Bool → String → Except String ℚ) :
    List (String × Bool) → List (String × ℚ)
  | [] => zeroSnapshot
  | (lbl, filt) :: rest =>
    let r := run_queries (q lbl filt)
    if anyNonzero r then r else measureGo q rest

/-- Embedding of `measure_metrics` (perf_run.py lines 156-233).  The
pre-flight series counts (lines 161-186) are wrapped in their own
`try/except` and affect no result, so they are not modelled.  `q lbl filt k`
is the outcome of the `prom_query` for metric `k` under pod label `lbl` with
the container filter switched by `filt`. -/
def measure_metrics (q : String → Bool → String → Except String ℚ) : List (String × ℚ) :=
  measureGo q label_variants

/-- The label/filter combination tried at position `j` of the fallback
order, as a total function for indexing. -/
def variantAt (j : Nat) : String × Bool :=
  label_variants.getD j ("", false)

/-- The result set computed for the variant at position `j`. -/
def runAt (q : String → Bool → String → Except String ℚ) (j : Nat) : List (String × ℚ) :=
  run_queries (q (variantAt j).1 (variantAt j).2)

theorem anyNonzero_eq_false_iff (r : List (String × ℚ)) :
    anyNonzero r = false ↔ ∀ p ∈ r, p.2 = 0 := by
  simp [anyNonzero]

theorem run_queries_keys (q : String → Except String ℚ) :
    (run_queries q).map Prod.fst = metricKeys := rfl

/-- C7: the Metrics Collector tries the four label/filter combinations in the
fixed order pod-filtered, pod-unfiltered, pod_name-filtered,
pod_name-unfiltered, returning the full four-metric result set of the first
combination with any non-zero metric; all four keys are always present; it is
all-zero exactly when all four combinations are all-zero; and within a
combination a failed query degrades that metric to 0 instead of failing the
snapshot. -/
theorem C7_collector_fallback (q : String → Bool → String → Except String ℚ) :
    ((measure_metrics q).map Prod.fst = metricKeys)
    ∧ ((∀ p ∈ measure_metrics q, p.2 = 0) ↔ (∀ j, j < 4 → ∀ p ∈ runAt q j, p.2 = 0))
    ∧ (∀ j, j < 4 → (∀ i, i < j → anyNonzero (runAt q i) = false) →
        anyNonzero (runAt q j) = true → measure_metrics q = runAt q j)
    ∧ (∀ lbl filt k e, k ∈ metricKeys → q lbl filt k = .error e →
        List.lookup k (run_queries (q lbl filt)) = some 0) := by
  have hrw : ∀ j, j < 4 → runAt q j = run_queries (q (variantAt j).1 (variantAt j).2) :=
    fun j _ => rfl
  have hunfold : measure_metrics q
      = (if anyNonzero (runAt q 0) then runAt q 0
        else if anyNonzero (runAt q 1) then runAt q 1
        else if anyNonzero (runAt q 2) then runAt q 2
        else if anyNonzero (runAt q 3) then runAt q 3
        else zeroSnapshot) := by
    simp [measure_metrics, measureGo, label_variants, runAt, variantAt]
  have hfalse_of : ∀ (r : List (String × ℚ)), anyNonzero r = true → ¬(∀ p ∈ r, p.2 = 0) := by
    intro r hr hall
    obtain ⟨p, hp, hne⟩ := List.any_eq_true.mp hr
    have hp2 : p.2 ≠ 0 := by simpa using hne
    exact hp2 (hall p hp)
  refine ⟨?_, ?_, ?_, ?_⟩
  · rw [hunfold]
    split
    · exact run_queries_keys _
    · split
      · exact run_queries_keys _
      · split
        · exact run_queries_keys _
        · split
          · exact run_queries_keys _
          · rfl
  · by_cases h0 : anyNonzero (runAt q 0) = true
    · have hm : measure_metrics q = runAt q 0 := by rw [hunfold, if_pos h0]
      exact iff_of_false (by rw [hm]; exact hfalse_of _ h0)
        (fun hR => hfalse_of _ h0 (hR 0 (by omega)))
    · have h0f : anyNonzero (runAt q 0) = false := Bool.eq_false_iff.mpr h0
      by_cases h1 : anyNonzero (runAt q 1) = true
      · have hm : measure_metrics q = runAt q 1 := by rw [hunfold]; simp [h0f, h1]
        exact iff_of_false (by rw [hm]; exact hfalse_of _ h1)
          (fun hR => hfalse_of _ h1 (hR 1 (by omega)))
      · have h1f : anyNonzero (runAt q 1) = false := Bool.eq_false_iff.mpr h1
        by_cases h2 : anyNonzero (runAt q 2) = true
        · have hm : measure_metrics q = runAt q 2 := by rw [hunfold]; simp [h0f, h1f, h2]
          exact iff_of_false (by rw [hm]; exact hfalse_of _ h2)
            (fun hR => hfalse_of _ h2 (hR 2 (by omega)))
        · have h2f : anyNonzero (runAt q 2) = false := Bool.eq_false_iff.mpr h2
          by_cases h3 : anyNonzero (runAt q 3) = true
          · have hm : measure_metrics q = runAt q 3 := by
              rw [hunfold]; simp [h0f, h1f, h2f, h3]
            exact iff_of_false (by rw [hm]; exact hfalse_of _ h3)
              (fun hR => hfalse_of _ h3 (hR 3 (by omega)))
          · have h3f : anyNonzero (runAt q 3) = false := Bool.eq_false_iff.mpr h3
            have hm : measure_metrics q = zeroSnapshot := by
              rw [hunfold]; simp [h0f, h1f, h2f, h3f]
            refine iff_of_true ?_ ?_
            · rw [hm]; decide
            · intro j hj
              interval_cases j
              · exact (anyNonzero_eq_false_iff _).mp h0f
              · exact (anyNonzero_eq_false_iff _).mp h1f
              · exact (anyNonzero_eq_false_iff _).mp h2f
              · exact (anyNonzero_eq_false_iff _).mp h3f
  · intro j hj hprev hnz
    interval_cases j
    · rw [hunfold, if_pos hnz]
    · have h0f := hprev 0 (by omega)
      rw [hunfold]; simp [h0f, hnz]
    · have h0f := hprev 0 (by omega)
      have h1f := hprev 1 (by omega)
      rw [hunfold]; simp [h0f, h1f, hnz]
    · have h0f := hprev 0 (by omega)
      have h1f := hprev 1 (by omega)
      have h2f := hprev 2 (by omega)
      rw [hunfold]; simp [h0f, h1f, h2f, hnz]
  · intro lbl filt k e hk hq
    have hk4 : k = "apiserver_cpu_cores" ∨ k = "apiserver_mem_bytes"
        ∨ k = "etcd_cpu_cores" ∨ k = "etcd_mem_bytes" := by
      simpa [metricKeys] using hk
    rcases hk4 with rfl | rfl | rfl | rfl <;>
      simp [run_queries, metricKeys, List.lookup, valueOf, hq]

/-- C7 witness input: both `pod`-label variants yield all-zero, the
`pod_name`-filtered variant yields 5 for every metric. -/
def qC7 : String → Bool → String → Except String ℚ :=
  fun lbl filt _ => if lbl == "pod_name" && filt then .ok 5 else .ok 0

theorem C7_collector_fallback_witness :
    measure_metrics qC7 = runAt qC7 2 :=
  (C7_collector_fallback qC7).2.2.1 2 (by omega)
    (fun i hi => by interval_cases i <;> decide) (by decide)

/-- One loop step of `http_get_json` on a failed request: record the
`2 * (attempt + 1)` second sleep, remember the error, move on. -/
theorem httpGo_succ_err (resp : Nat → Except String α) (remaining attempt : Nat)
    (lastE : Option String) (slept : List Nat) (e : String)
    (h : resp attempt = .error e) :
    httpGo resp (remaining + 1) attempt lastE slept
      = httpGo resp remaining (attempt + 1) (some e) (2 * (attempt + 1) :: slept) := by
  simp [httpGo, h]

/-- One loop step of `http_get_json` on a successful request. -/
theorem httpGo_succ_ok (resp : Nat → Except String α) (remaining attempt : Nat)
    (lastE : Option String) (slept : List Nat) (a : α) (h : resp attempt = .ok a) :
    httpGo resp (remaining + 1) attempt lastE slept = (.ok a, slept.reverse) := by
  simp [httpGo, h]

/-- The linearly increasing sleeps performed after failed attempts
`attempt, …, attempt + r - 1`: `2 * (attempt + 1), …, 2 * (attempt + r)`. -/
def linDelays (attempt : Nat) : Nat → List Nat
  | 0 => []
  | r + 1 => 2 * (attempt + 1) :: linDelays (attempt + 1) r

theorem linDelays_succ (attempt r : Nat) :
    linDelays attempt (r + 1) = 2 * (attempt + 1) :: linDelays (attempt + 1) r := rfl

/-- If attempts `attempt, …, attempt + r - 1` all fail, the loop exhausts its
fuel, sleeping the linearly increasing delays, and raises the last error. -/
theorem httpGo_all_fail (resp : Nat → Except String α) (es : Nat → String) :
    ∀ (r attempt : Nat) (lastE : Option String) (slept : List Nat), 1 ≤ r →
      (∀ j, attempt ≤ j → j < attempt + r → resp j = .error (es j)) →
      httpGo resp r attempt lastE slept
        = (.error (es (attempt + r - 1)), slept.reverse ++ linDelays attempt r) := by
  intro r
  induction r with
  | zero => intro attempt lastE slept h1 _; omega
  | succ r ih =>
    intro attempt lastE slept _ hfail
    rw [httpGo_succ_err resp r attempt lastE slept (es attempt)
      (hfail attempt (Nat.le_refl _) (by omega))]
    rcases Nat.eq_zero_or_pos r with hr0 | hrpos
    · subst hr0
      simp [httpGo, linDelays]
    · rw [ih (attempt + 1) (some (es attempt)) (2 * (attempt + 1) :: slept) hrpos
        (fun j hj1 hj2 => hfail j (by omega) (by omega))]
      rw [linDelays_succ, show attempt + 1 + r - 1 = attempt + (r + 1) - 1 by omega]
      simp

/-- If attempts `attempt, …, attempt + m - 1` fail and attempt `attempt + m`
succeeds within the budget, the loop returns the response after sleeping the
linearly increasing delays for the failures. -/
theorem httpGo_ok_after (resp : Nat → Except String α) (es : Nat → String) (a : α) :
    ∀ (m r attempt : Nat) (lastE : Option String) (slept : List Nat), m < r →
      (∀ j, attempt ≤ j → j < attempt + m → resp j = .error (es j)) →
      resp (attempt + m) = .ok a →
      httpGo resp r attempt lastE slept
        = (.ok a, slept.reverse ++ linDelays attempt m) := by
  intro m
  induction m with
  | zero =>
    intro r attempt lastE slept hr _ hok
    obtain ⟨r0, rfl⟩ := Nat.exists_eq_add_of_lt hr
    rw [show 0 + r0 + 1 = r0 + 1 by omega,
      httpGo_succ_ok resp r0 attempt lastE slept a (by simpa using hok)]
    simp [linDelays]
  | succ m ih =>
    intro r attempt lastE slept hr hfail hok
    obtain ⟨r0, rfl⟩ := Nat.exists_eq_add_of_lt hr
    rw [show m + 1 + r0 + 1 = (m + 1 + r0) + 1 by omega,
      httpGo_succ_err resp (m + 1 + r0) attempt lastE slept (es attempt)
        (hfail attempt (Nat.le_refl _) (by omega))]
    rw [ih (m + 1 + r0) (attempt + 1) (some (es attempt)) (2 * (attempt + 1) :: slept)
      (by omega) (fun j hj1 hj2 => hfail j (by omega) (by omega))
      (by rw [show attempt + 1 + m = attempt + (m + 1) by omega]; exact hok)]
    rw [linDelays_succ]
    simp

/-- Counterexample inputs for C5: an HTTP endpoint that fails every attempt,
and a metrics backend on which every single query fails (total transport
exhaustion on all four queries of all four variants). -/
def respC5 : Nat → Except String Unit :=
  fun _ => .error "connection reset by peer"

def qC5 : String → Bool → String → Except String ℚ :=
  fun _ _ _ => .error "connection reset by peer"

/-- C5 counterexample: `http_get_json` does exhaust its 6 attempts and
re-raise (sleeping 2,4,6,8,10,12 — including a sleep after the final failed
attempt), but the claim that the error is then propagated up through the
Metrics Collector is false: `run_queries` (perf_run.py lines 216-222) catches
every per-query exception and substitutes 0.0, so with the backend completely
unreachable `measure_metrics` returns the all-zero snapshot instead of
raising. -/
theorem C5_counterexample :
    http_get_json respC5 = (.error "connection reset by peer", [2, 4, 6, 8, 10, 12])
    ∧ measure_metrics qC5 = zeroSnapshot
    ∧ zeroSnapshot = [("apiserver_cpu_cores", 0), ("apiserver_mem_bytes", 0),
        ("etcd_cpu_cores", 0), ("etcd_mem_bytes", 0)] := by
  exact ⟨rfl, rfl, rfl⟩

/-- C5 (amended): every underlying metrics HTTP query makes up to 6 attempts,
sleeping `2s × attempt number` after each failed attempt (including the final
one) and re-raising the last transport error after exhaustion; but the
Metrics Collector catches each individual query's failure and degrades that
metric to 0.0, so transport exhaustion never propagates out of Measure — with
the backend unreachable the snapshot is all-zero rather than an error. -/
theorem C5_transport_retry (es : Nat → String) (resp : Nat → Except String Unit) :
    ((∀ j, j < 6 → resp j = .error (es j)) →
      http_get_json resp = (.error (es 5), [2, 4, 6, 8, 10, 12]))
    ∧ (∀ (k : Nat) (a : Unit), k < 6 → (∀ j, j < k → resp j = .error (es j)) →
      resp k = .ok a →
      http_get_json resp = (.ok a, (List.range k).map (fun j => 2 * (j + 1))))
    ∧ (∀ (q : String → Bool → String → Except String ℚ),
      (∀ lbl filt key, ∃ e, q lbl filt key = .error e) →
      measure_metrics q = zeroSnapshot) := by
  refine ⟨?_, ?_, ?_⟩
  · intro hfail
    rw [http_get_json, httpGo_all_fail resp es 6 0 none [] (by omega)
      (fun j hj1 hj2 => hfail j (by omega))]
    rfl
  · intro k a hk hfail hok
    rw [http_get_json, httpGo_ok_after resp es a k 6 0 none [] hk
      (fun j hj1 hj2 => hfail j (by omega)) (by simpa using hok)]
    have hld : linDelays 0 k = (List.range k).map (fun j => 2 * (j + 1)) := by
      interval_cases k <;> rfl
    rw [hld]
    simp
  · intro q hq
    have hz : ∀ lbl filt, anyNonzero (run_queries (q lbl filt)) = false := by
      intro lbl filt
      rw [anyNonzero_eq_false_iff]
      intro p hp
      simp [run_queries] at hp
      obtain ⟨key, _, rfl⟩ := hp
      obtain ⟨e, he⟩ := hq lbl filt key
      simp [valueOf, he]
    simp [measure_metrics, measureGo, label_variants, hz]

/-- C5 witness input: the HTTP request fails twice, then succeeds. -/
def respC5w : Nat → Except String Unit :=
  fun i => if i < 2 then .error "boom" else .ok ()

theorem C5_transport_retry_witness :
    http_get_json respC5w = (.ok (), (List.range 2).map (fun j => 2 * (j + 1))) :=
  (C5_transport_retry (fun _ => "boom") respC5w).2.1 2 () (by omega)
    (fun j hj => by interval_cases j <;> rfl) rfl

/-- The `cluster` sub-dict of a kubeconfig cluster entry: the `server` URL
(read with `.get("server", "")`, so possibly absent) plus any other keys,
which the derivation must carry over untouched. -/
structure ClusterSpec where
  server : Option String
  extra : List (String × String)
deriving DecidableEq

/-- A kubeconfig `clusters` list entry. -/
structure ClusterEntry where
  name : String
  cluster : ClusterSpec
deriving DecidableEq

/-- The `context` sub-dict of a kubeconfig context entry. -/
structure ContextSpec where
  cluster : String
  extra : List (String × String)
deriving DecidableEq

/-- A kubeconfig `contexts` list entry. -/
structure ContextEntry where
  name : String
  context : ContextSpec
deriving DecidableEq

/-- A kubeconfig as `build_scoped_kubeconfig` touches it: clusters, contexts,
`current-context` (absent key modelled as `none`), and the untouched
remainder (users, preferences, …) collapsed into `rest`. -/
structure Kubeconfig where
  clusters : List ClusterEntry
  contexts : List ContextEntry
  currentContext : Option String
  rest : List (String × String)
deriving DecidableEq

/-- Python's `s.rstrip("/")`: remove every trailing slash. -/
def rstripSlash (s : String) : String :=
  String.mk (((s.data).reverse.dropWhile (fun c => c = '/')).reverse)

/-- Embedding of `build_scoped_kubeconfig` (perf_run.py lines 279-292).  Line
280 deep-copies `base_cfg` through a YAML dump/load round-trip before any
write, so the in-place updates of the Python code touch only the copy; the
embedding returns the pair (derived config, value of `base_cfg` observable
after the call), the second component being `base` itself because of that
copy.  Each cluster entry is renamed to `newName` and its server URL becomes
the old URL with trailing slashes removed followed by `scopePath`; each
context (if any) is renamed and repointed at `newName`; `current-context` is
set to `newName` only when present and non-empty (Python truthiness). -/
def build_scoped_kubeconfig (base : Kubeconfig) (scopePath newName : String) :
    Kubeconfig × Kubeconfig :=
  let cfg := base
  let clusters := cfg.clusters.map (fun c =>
    { name := newName,
      cluster := { c.cluster with
        server := some (rstripSlash (c.cluster.server.getD "") ++ scopePath) } })
  let contexts := cfg.contexts.map (fun ctx =>
    { name := newName, context := { ctx.context with cluster := newName } })
  let cur := match cfg.currentContext with
    | some s => if s = "" then some s else some newName
    | none => none
  ({ cfg with clusters := clusters, contexts := contexts, currentContext := cur }, base)

/-- C8: `build_scoped_kubeconfig` leaves the base descriptor completely
unchanged (the observable value of `base_cfg` after the call equals the
input, thanks to the deep copy on line 280), and the derived copy has, for
every cluster entry, the server URL equal to the base URL with trailing
slashes removed suffixed by the scope path and the cluster name equal to the
new name with all other cluster fields preserved; every context is renamed
and repointed to the new name; a present non-empty `current-context` becomes
the new name; and the untouched remainder of the file is preserved. -/
theorem C8_derive_pure (base : Kubeconfig) (scopePath newName : String) :
    ((build_scoped_kubeconfig base scopePath newName).2 = base)
    ∧ ((build_scoped_kubeconfig base scopePath newName).1.clusters.length
        = base.clusters.length)
    ∧ (∀ i (h2 : i < (build_scoped_kubeconfig base scopePath newName).1.clusters.length)
        (h : i < base.clusters.length),
        ((build_scoped_kubeconfig base scopePath newName).1.clusters.get ⟨i, h2⟩).name
          = newName
        ∧ ((build_scoped_kubeconfig base scopePath newName).1.clusters.get
            ⟨i, h2⟩).cluster.server
          = some (rstripSlash ((base.clusters.get ⟨i, h⟩).cluster.server.getD "")
              ++ scopePath)
        ∧ ((build_scoped_kubeconfig base scopePath newName).1.clusters.get
            ⟨i, h2⟩).cluster.extra
          = (base.clusters.get ⟨i, h⟩).cluster.extra)
    ∧ (∀ ctx ∈ (build_scoped_kubeconfig base scopePath newName).1.contexts,
        ctx.name = newName ∧ ctx.context.cluster = newName)
    ∧ (∀ s, base.currentContext = some s → s ≠ "" →
        (build_scoped_kubeconfig base scopePath newName).1.currentContext = some newName)
    ∧ ((build_scoped_kubeconfig base scopePath newName).1.rest = base.rest) := by
  refine ⟨rfl, by simp [build_scoped_kubeconfig], ?_, ?_, ?_, rfl⟩
  · intro i h2 h
    simp [build_scoped_kubeconfig, List.get_eq_getElem, List.getElem_map]
  · intro ctx hctx
    simp [build_scoped_kubeconfig] at hctx
    obtain ⟨c, _, rfl⟩ := hctx
    exact ⟨rfl, rfl⟩
  · intro s hs hne
    simp [build_scoped_kubeconfig, hs, hne]

/-- C8 witness input: a base kubeconfig with one cluster whose server URL has
a trailing slash, one context, a current-context, and untouched user data. -/
def baseC8 : Kubeconfig :=
  { clusters := [⟨"milo", ⟨some "https://api.milo.example:6443/",
      [("certificate-authority-data", "Zm9v")]⟩⟩],
    contexts := [⟨"milo", ⟨"milo", [("user", "perf")]⟩⟩],
    currentContext := some "milo",
    rest := [("users", "perf-user-token")] }

theorem C8_derive_pure_witness :
    (build_scoped_kubeconfig baseC8
      "/apis/resourcemanager.miloapis.com/v1alpha1/organizations/perf-abc/control-plane"
      "organization-perf-abc").2 = baseC8
    ∧ (build_scoped_kubeconfig baseC8
      "/apis/resourcemanager.miloapis.com/v1alpha1/organizations/perf-abc/control-plane"
      "organization-perf-abc").1.currentContext = some "organization-perf-abc" := by
  have h := C8_derive_pure baseC8
    "/apis/resourcemanager.miloapis.com/v1alpha1/organizations/perf-abc/control-plane"
    "organization-perf-abc"
  exact ⟨h.1, h.2.2.2.2.1 "milo" rfl (by decide)⟩

/-- The labelled state visible to the Cleanup Engine through a sequentially
consistent store: the labelled Projects (with the labelled Secrets and
ConfigMaps under each project's scope), whether the Organization exists, and
whether the `perf-results` checkpoint ConfigMap exists.  A delete of an
existing object succeeds with status 200; a delete of an absent object
reports 404. -/
structure World where
  projects : List (String × List String × List String)
  orgExists : Bool
  checkpointExists : Bool
deriving DecidableEq

/-- The already-cleaned world: listing by the test label finds nothing and
every delete reports 404. -/
def World.clean : World := ⟨[], false, false⟩

/-- The Project/Organization delete handler (perf_run.py lines 734-743 and
746-755): `if e.status not in (404, 409): raise`. -/
def tolerate409 (st : Nat) : Except ApiErr Unit :=
  if st = 200 then .ok () else if st = 404 ∨ st = 409 then .ok () else .error ⟨st, ""⟩

/-- The checkpoint-ConfigMap delete handler in cleanup mode (perf_run.py
lines 773-777): `if e.status != 404: raise`. -/
def tolerate404 (st : Nat) : Except ApiErr Unit :=
  if st = 200 then .ok () else if st = 404 then .ok () else .error ⟨st, ""⟩

/-- The per-project loop of `cleanup_resources` (perf_run.py lines 697-743):
for each listed (hence existing) Project, delete its labelled Secrets and
ConfigMaps (each existing, status 200; the whole object sub-step is wrapped
in broad `except` blocks, lines 708-731, so no status can abort it), then
delete the Project through the organization-scoped client, tolerating
404/409.  Returns the delete statuses observed, in order. -/
def cleanupProjects : List (String × List String × List String) → Except ApiErr (List Nat)
  | [] => .ok []
  | (_, secrets, cms) :: restp =>
    match tolerate409 200 with
    | .error e => .error e
    | .ok _ =>
      match cleanupProjects restp with
      | .error e => .error e
      | .ok restSts =>
        .ok (secrets.map (fun _ => 200) ++ cms.map (fun _ => 200) ++ 200 :: restSts)

/-- Embedding of a full cleanup pass: `cleanup_resources` (perf_run.py lines
679-755) followed by the checkpoint-ConfigMap removal of cleanup mode
(perf_run.py lines 762-779).  The listing at lines 691-696 returns exactly
the labelled projects of the current world; the Organization delete tolerates
404/409, the checkpoint delete tolerates 404.  Returns the cleaned world and
the list of delete statuses observed. -/
def cleanup_run (w : World) : Except ApiErr (World × List Nat) :=
  match cleanupProjects w.projects with
  | .error e => .error e
  | .ok projSts =>
    let orgSt := if w.orgExists then 200 else 404
    match tolerate409 orgSt with
    | .error e => .error e
    | .ok _ =>
      let cpSt := if w.checkpointExists then 200 else 404
      match tolerate404 cpSt with
      | .error e => .error e
      | .ok _ => .ok (World.clean, projSts ++ [orgSt, cpSt])

theorem cleanupProjects_ok (l : List (String × List String × List String)) :
    ∃ sts, cleanupProjects l = .ok sts := by
  induction l with
  | nil => exact ⟨[], rfl⟩
  | cons p restp ih =>
    obtain ⟨sts, hsts⟩ := ih
    obtain ⟨nm, secrets, cms⟩ := p
    refine ⟨secrets.map (fun _ => 200) ++ cms.map (fun _ => 200) ++ 200 :: sts, ?_⟩
    simp [cleanupProjects, tolerate409, hsts]

theorem cleanup_run_ok (w : World) :
    ∃ sts, cleanup_run w = .ok (World.clean, sts) := by
  obtain ⟨psts, hp⟩ := cleanupProjects_ok w.projects
  rcases w with ⟨projects, org, cp⟩
  cases org <;> cases cp
  · exact ⟨psts ++ [404, 404], by simp only [cleanup_run, hp]; rfl⟩
  · exact ⟨psts ++ [404, 200], by simp only [cleanup_run, hp]; rfl⟩
  · exact ⟨psts ++ [200, 404], by simp only [cleanup_run, hp]; rfl⟩
  · exact ⟨psts ++ [200, 200], by simp only [cleanup_run, hp]; rfl⟩

/-- C9: Cleanup is idempotent with respect to already-gone state: a second
cleanup pass immediately after a successful first one again succeeds, and
every delete it performs observes 404 (the labelled-project listing is empty,
so only the Organization and checkpoint deletes run, both already gone and
both tolerated by the `404/409`-tolerant handlers). -/
theorem C9_cleanup_idempotent (w w1 : World) (tr1 : List Nat)
    (hfirst : cleanup_run w = .ok (w1, tr1)) :
    ∃ tr2, cleanup_run w1 = .ok (w1, tr2) ∧ tr2 = [404, 404]
      ∧ ∀ st ∈ tr2, st = 404 := by
  obtain ⟨sts, hok⟩ := cleanup_run_ok w
  rw [hok] at hfirst
  have hw1 : w1 = World.clean := by
    injection hfirst with h
    injection h with h1 h2
    exact h1.symm
  subst hw1
  exact ⟨[404, 404], rfl, rfl, by decide⟩

/-- C9 witness input: a world holding one labelled project with one secret
and one configmap, the Organization, and the checkpoint record. -/
def worldC9 : World :=
  ⟨[("perf-abc-p-001", ["perf-secret-001"], ["perf-configmap-001"])], true, true⟩

theorem C9_cleanup_idempotent_witness :
    ∃ tr2, cleanup_run World.clean = .ok (World.clean, tr2) ∧ tr2 = [404, 404]
      ∧ ∀ st ∈ tr2, st = 404 :=
  C9_cleanup_idempotent worldC9 World.clean [200, 200, 200, 200, 200] rfl

/-- The persistence-relevant effects of a `run`-mode `main` (perf_run.py
lines 781-899), each modelled by its outcome: the three phase-boundary
`save_checkpoint` calls, the metrics and provisioning stages between them,
and the two final results sinks.  Stabilization sleeps change no outcome and
are omitted. -/
structure RunSteps where
  checkpointInit : Except PyErr Unit
  baselineMetrics : Except PyErr Unit
  createOrgAndProjects : Except PyErr Unit
  checkpointOrgCreated : Except PyErr Unit
  afterProjectsMetrics : Except PyErr Unit
  checkpointProjectsReady : Except PyErr Unit
  createObjects : Except PyErr Unit
  afterObjectsMetrics : Except PyErr Unit
  writeResultFiles : Except PyErr Unit
  saveResultsConfigMap : Except PyErr Unit

/-- Embedding of the `run`-mode control flow of `main` (perf_run.py lines
781-899), tracking which persistence failures abort and which are only
logged.  The order follows the source: checkpoint `init` (line 803, bare
call), baseline metrics (807), org+project creation (811), checkpoint
`org-created` (815, bare), after-projects metrics (822), checkpoint
`projects-ready` (824, bare), the optional objects phase (830-846), then the
result-file write (874-884) and results-ConfigMap save (886-897), both
wrapped in `try/except` that only logs.  Returns the warnings logged by the
guarded sinks; an error return is the run aborting with that exception. -/
def main_run (s : RunSteps) (runObjectsPhase : Bool) : Except PyErr (List String) :=
  match s.checkpointInit with
  | .error e => .error e
  | .ok _ =>
  match s.baselineMetrics with
  | .error e => .error e
  | .ok _ =>
  match s.createOrgAndProjects with
  | .error e => .error e
  | .ok _ =>
  match s.checkpointOrgCreated with
  | .error e => .error e
  | .ok _ =>
  match s.afterProjectsMetrics with
  | .error e => .error e
  | .ok _ =>
  match s.checkpointProjectsReady with
  | .error e => .error e
  | .ok _ =>
  match (if runObjectsPhase then
      (match s.createObjects with
        | .error e => .error e
        | .ok _ => s.afterObjectsMetrics : Except PyErr Unit)
    else .ok ()) with
  | .error e => .error e
  | .ok _ =>
    let w1 := match s.writeResultFiles with
      | .ok _ => ([] : List String)
      | .error _ => ["Failed to write results"]
    let w2 := match s.saveResultsConfigMap with
      | .ok _ => ([] : List String)
      | .error _ => ["Skipping ConfigMap save"]
    .ok (w1 ++ w2)

/-- All steps succeeding, as a base point for the C4 inputs. -/
def allOkSteps : RunSteps :=
  ⟨.ok (), .ok (), .ok (), .ok (), .ok (), .ok (), .ok (), .ok (), .ok (), .ok ()⟩

/-- C4 counterexample: the claim says a failed checkpoint persistence at the
phase boundaries is logged as a warning and does not abort the run, but the
`save_checkpoint` calls on perf_run.py lines 803 (`init`), 815
(`org-created`) and 824 (`projects-ready`) are bare: a failure of any of the
three propagates and aborts the run. -/
theorem C4_counterexample :
    main_run { allOkSteps with
        checkpointInit := .error (.api ⟨500, "etcdserver: request timed out"⟩) } true
      = .error (.api ⟨500, "etcdserver: request timed out"⟩)
    ∧ main_run { allOkSteps with
        checkpointOrgCreated := .error (.api ⟨500, "etcdserver: request timed out"⟩) } true
      = .error (.api ⟨500, "etcdserver: request timed out"⟩)
    ∧ main_run { allOkSteps with
        checkpointProjectsReady := .error (.api ⟨403, "forbidden"⟩) } true
      = .error (.api ⟨403, "forbidden"⟩) := by
  exact ⟨rfl, rfl, rfl⟩

/-- C4 (amended): only the final results persistence is failure-tolerant:
when the three phase-boundary checkpoint saves and the provisioning and
metrics stages succeed, a failure of the result-file write and/or of the
final results-ConfigMap save is only logged as a warning and the run still
completes with its collected results; a failure of any of the three
phase-boundary checkpoint saves (`init`, `org-created`, `projects-ready` —
all bare calls in the source), by contrast, aborts the run with that
error. -/
theorem C4_persistence_guarding (s : RunSteps) (b : Bool)
    (h1 : s.checkpointInit = .ok ()) (h2 : s.baselineMetrics = .ok ())
    (h3 : s.createOrgAndProjects = .ok ()) (h4 : s.checkpointOrgCreated = .ok ())
    (h5 : s.afterProjectsMetrics = .ok ()) (h6 : s.checkpointProjectsReady = .ok ())
    (h7 : s.createObjects = .ok ()) (h8 : s.afterObjectsMetrics = .ok ()) :
    (s.writeResultFiles = .ok () → s.saveResultsConfigMap = .ok () →
      main_run s b = .ok [])
    ∧ (∀ e1, s.writeResultFiles = .error e1 → s.saveResultsConfigMap = .ok () →
      main_run s b = .ok ["Failed to write results"])
    ∧ (∀ e2, s.writeResultFiles = .ok () → s.saveResultsConfigMap = .error e2 →
      main_run s b = .ok ["Skipping ConfigMap save"])
    ∧ (∀ e1 e2, s.writeResultFiles = .error e1 → s.saveResultsConfigMap = .error e2 →
      main_run s b = .ok ["Failed to write results", "Skipping ConfigMap save"])
    ∧ (∀ e, main_run { s with checkpointInit := .error e } b = .error e)
    ∧ (∀ e, main_run { s with checkpointOrgCreated := .error e } b = .error e)
    ∧ (∀ e, main_run { s with checkpointProjectsReady := .error e } b = .error e) := by
  refine ⟨?_, ?_, ?_, ?_, ?_, ?_, ?_⟩
  · intro hw hc
    cases b <;> simp [main_run, h1, h2, h3, h4, h5, h6, h7, h8, hw, hc]
  · intro e1 hw hc
    cases b <;> simp [main_run, h1, h2, h3, h4, h5, h6, h7, h8, hw, hc]
  · intro e2 hw hc
    cases b <;> simp [main_run, h1, h2, h3, h4, h5, h6, h7, h8, hw, hc]
  · intro e1 e2 hw hc
    cases b <;> simp [main_run, h1, h2, h3, h4, h5, h6, h7, h8, hw, hc]
  · intro e
    rfl
  · intro e
    simp [main_run, h1, h2, h3]
  · intro e
    simp [main_run, h1, h2, h3, h4, h5]

/-- C4 witness input: everything succeeds except the final ConfigMap save
(e.g. the service account lacks RBAC), which must only warn. -/
def stepsC4 : RunSteps :=
  { allOkSteps with saveResultsConfigMap := .error (.api ⟨403, "forbidden"⟩) }

theorem C4_persistence_guarding_witness :
    main_run stepsC4 true = .ok ["Skipping ConfigMap save"]
    ∧ main_run { stepsC4 with checkpointInit := .error (.other "boom") } true
      = .error (.other "boom")
    ∧ main_run { stepsC4 with checkpointOrgCreated := .error (.other "boom") } true
      = .error (.other "boom")
    ∧ main_run { stepsC4 with checkpointProjectsReady := .error (.other "boom") } true
      = .error (.other "boom") := by
  have h := C4_persistence_guarding stepsC4 true rfl rfl rfl rfl rfl rfl rfl rfl
  exact ⟨h.2.2.1 (.api ⟨403, "forbidden"⟩) rfl rfl, h.2.2.2.2.1 (.other "boom"),
    h.2.2.2.2.2.1 (.other "boom"), h.2.2.2.2.2.2 (.other "boom")⟩

end PerfRun
